import Mathlib

/-!
Shallow embedding of the QR attendance backend (`backend/server.py`).

Conventions of the embedding:
* Machine time is a `Nat` (seconds); `timedelta(minutes=m)` becomes `m * 60`.
  Each request handler receives the single instant `now` at which it runs.
* MongoDB collections become Lean lists in insertion (natural) order;
  `find_one` is `List.find?` (first match), `insert_one` appends, and
  `update_one` by the `_id` of a previously found document updates the first
  document matching the same filter.
* Randomness (`uuid4`, `random.choices`) and external collaborators
  (the SHA-256 hash, the JWT encoder, the QR image encoder) are parameters of
  the embedded operations.
* An HTTPException raised by a handler becomes `Outcome.err` with the error
  kind given by the spec's taxonomy (404 → notFound, 403 → permissionDenied,
  401 → unauthenticated, 400 "expired" → expired, 400 "Invalid OTP" →
  invalidCode, 400 duplicates → conflict).  An unhandled Python exception
  (a `None` dereference or a missing dictionary key) becomes `Outcome.crash`.
  Every operation returns the resulting store; a raise aborts the handler
  before any write, so error and crash outcomes carry the store unchanged.
* The FastAPI `require_role` dependency runs before the handler body, so each
  embedded operation checks the caller's role first, before touching the store.
-/

namespace AttendanceSpec

/-! ### Roles (`UserRole`) -/

def SUPERADMIN : String := "superadmin"

def SUBADMIN : String := "subadmin"

def CLASS_TEACHER : String := "class_teacher"

def SUB_TEACHER : String := "sub_teacher"

def STUDENT : String := "student"

/-! ### Data model -/

/-- A stored user document.  `hashed_password` is `none` when the stored
document has no `hashed_password` key (as for documents written by
`add_student`). -/
structure UserDoc where
  id : String
  email : String
  username : String
  role : String
  department_id : Option String
  class_id : Option String
  roll_no : Option String
  working_time : Option String
  hashed_password : Option String
  created_at : Nat
  is_active : Bool
deriving DecidableEq, Repr

/-- Request body for `register_user` / `add_student` (`UserCreate`). -/
structure UserCreate where
  email : String
  username : String
  password : String
  role : String
  department_id : Option String
  class_id : Option String
  roll_no : Option String
  working_time : Option String
deriving DecidableEq, Repr

structure Department where
  id : String
  name : String
  created_at : Nat
  created_by : String
deriving DecidableEq, Repr

structure Class where
  id : String
  name : String
  department_id : String
  created_at : Nat
  created_by : String
deriving DecidableEq, Repr

structure Schedule where
  id : String
  class_id : String
  teacher_id : String
  subject : String
  start_time : String
  end_time : String
  day_of_week : String
  created_at : Nat
deriving DecidableEq, Repr

structure QRSession where
  id : String
  class_id : String
  teacher_id : String
  subject : String
  qr_code : String
  expires_at : Nat
  created_at : Nat
deriving DecidableEq, Repr

structure OTPRequest where
  student_id : String
  qr_session_id : String
  otp : String
  expires_at : Nat
  verified : Bool
  created_at : Nat
deriving DecidableEq, Repr

structure Attendance where
  id : String
  student_id : String
  class_id : String
  teacher_id : String
  subject : String
  date : Nat
  status : String
  qr_session_id : String
  created_at : Nat
deriving DecidableEq, Repr

structure Token where
  access_token : String
  token_type : String
  user : UserDoc
deriving DecidableEq, Repr

structure QRCodeResponse where
  qr_code_base64 : String
  session_id : String
  expires_at : Nat
deriving DecidableEq, Repr

/-- The document store (`db`): one list per collection, in natural order. -/
structure Store where
  users : List UserDoc
  departments : List Department
  classes : List Class
  schedules : List Schedule
  qr_sessions : List QRSession
  otp_requests : List OTPRequest
  attendance : List Attendance
deriving DecidableEq, Repr

/-! ### Outcomes -/

/-- The spec's error taxonomy for HTTPExceptions raised by the handlers. -/
inductive ApiError where
  | unauthenticated
  | permissionDenied
  | notFound
  | conflict
  | expired
  | invalidCode
deriving DecidableEq, Repr

/-- Result of one request: a value, a raised HTTPException of a given kind, or
an unhandled Python exception (`crash`). -/
inductive Outcome (α : Type) where
  | ok : α → Outcome α
  | err : ApiError → Outcome α
  | crash : Outcome α
deriving DecidableEq, Repr

/-! ### Allowed-role lists, as written at each endpoint's `require_role` -/

def register_allowed : List String := [SUPERADMIN, SUBADMIN]

def create_department_allowed : List String := [SUPERADMIN]

def create_class_allowed : List String := [SUBADMIN]

def create_schedule_allowed : List String := [SUBADMIN]

def generate_qr_allowed : List String := [CLASS_TEACHER, SUB_TEACHER]

def scan_allowed : List String := [STUDENT]

def verify_allowed : List String := [STUDENT]

def add_student_allowed : List String := [CLASS_TEACHER]

def get_students_allowed : List String := [CLASS_TEACHER, SUB_TEACHER]

def report_allowed : List String := [CLASS_TEACHER, SUB_TEACHER, SUBADMIN]

/-! ### Utility functions -/

/-- `generate_otp`: six independent uniform digit draws
(`random.choices(string.digits, k=6)`), the draw being the parameter. -/
def generate_otp (digit : Fin 6 → Fin 10) : String :=
  String.mk ((List.finRange 6).map (fun i => Char.ofNat (48 + (digit i).val)))

/-- The QR payload string `f"attendance:{session_id}:{class_id}:{teacher_id}"`
built at line 345 of `server.py`. -/
def qrPayload (session_id class_id teacher_id : String) : String :=
  "attendance:" ++ session_id ++ ":" ++ class_id ++ ":" ++ teacher_id

/-- The Mongo filter used by `verify_otp`'s `find_one` on `otp_requests`. -/
def otpMatches (student_id qr_session_id otp : String) (o : OTPRequest) : Bool :=
  o.student_id == student_id && o.qr_session_id == qr_session_id &&
    o.otp == otp && o.verified == false

/-- `update_one({"_id": ...}, {"$set": {"verified": True}})` applied to the
document previously returned by `find_one`: set `verified` on the first
document matching the same filter. -/
def markFirstVerified (p : OTPRequest → Bool) : List OTPRequest → List OTPRequest
  | [] => []
  | o :: rest =>
    if p o then { o with verified := true } :: rest
    else o :: markFirstVerified p rest

/-! ### Operations (the `/api` handlers) -/

/-- `POST /auth/register`.  `new_id`/`now` stand for the `uuid4` and
`datetime.now` defaults; `hash` is `get_password_hash` (SHA-256).  The stored
document carries the password hash. -/
def register_user (user_data : UserCreate) (new_id : String) (now : Nat)
    (hash : String → String) (current_user : UserDoc) (s : Store) :
    Outcome UserDoc × Store :=
  if ¬ (current_user.role ∈ register_allowed) then (.err .permissionDenied, s)
  else if (s.users.find? (fun x => x.email == user_data.email)).isSome then
    (.err .conflict, s)
  else
    let user_obj : UserDoc :=
      ⟨new_id, user_data.email, user_data.username, user_data.role,
        user_data.department_id, user_data.class_id, user_data.roll_no,
        user_data.working_time, some (hash user_data.password), now, true⟩
    (.ok user_obj, { s with users := s.users ++ [user_obj] })

/-- `POST /auth/login`.  `hash` is `get_password_hash`, `mkTok` abstracts
`create_access_token` on the subject id.  When the found document has no
`hashed_password` key, `user["hashed_password"]` raises `KeyError`: `crash`. -/
def login (hash : String → String) (mkTok : String → String)
    (email password : String) (s : Store) : Outcome Token × Store :=
  match s.users.find? (fun x => x.email == email) with
  | none => (.err .unauthenticated, s)
  | some user =>
    match user.hashed_password with
    | none => (.crash, s)
    | some hp =>
      if hash password == hp then
        (.ok ⟨mkTok user.id, "bearer", user⟩, s)
      else (.err .unauthenticated, s)

/-- `POST /departments`. -/
def create_department (name : String) (new_id : String) (now : Nat)
    (current_user : UserDoc) (s : Store) : Outcome Department × Store :=
  if ¬ (current_user.role ∈ create_department_allowed) then
    (.err .permissionDenied, s)
  else
    let department : Department := ⟨new_id, name, now, current_user.id⟩
    (.ok department, { s with departments := s.departments ++ [department] })

/-- `POST /classes`. -/
def create_class (name department_id : String) (new_id : String) (now : Nat)
    (current_user : UserDoc) (s : Store) : Outcome Class × Store :=
  if ¬ (current_user.role ∈ create_class_allowed) then
    (.err .permissionDenied, s)
  else
    match s.departments.find? (fun d => d.id == department_id) with
    | none => (.err .notFound, s)
    | some _ =>
      let class_obj : Class := ⟨new_id, name, department_id, now, current_user.id⟩
      (.ok class_obj, { s with classes := s.classes ++ [class_obj] })

/-- `POST /schedules`. -/
def create_schedule (schedule_data : Schedule) (current_user : UserDoc)
    (s : Store) : Outcome Schedule × Store :=
  if ¬ (current_user.role ∈ create_schedule_allowed) then
    (.err .permissionDenied, s)
  else
    (.ok schedule_data, { s with schedules := s.schedules ++ [schedule_data] })

/-- `POST /qr/generate`.  `session_id` stands for the fresh `uuid4`; `enc` is
the abstract QR encoder `generate_qr_code` from payload string to artifact. -/
def generate_qr_session (now : Nat) (session_id : String)
    (class_id subject : String) (enc : String → String) (current_user : UserDoc)
    (s : Store) : Outcome QRCodeResponse × Store :=
  if ¬ (current_user.role ∈ generate_qr_allowed) then (.err .permissionDenied, s)
  else if current_user.role == CLASS_TEACHER &&
      current_user.class_id != some class_id then
    (.err .permissionDenied, s)
  else
    let expires_at := now + 15 * 60
    let qr_data := qrPayload session_id class_id current_user.id
    let qr_code_base64 := enc qr_data
    let qr_session : QRSession :=
      ⟨session_id, class_id, current_user.id, subject, qr_code_base64,
        expires_at, now⟩
    (.ok ⟨qr_code_base64, session_id, expires_at⟩,
      { s with qr_sessions := s.qr_sessions ++ [qr_session] })

/-- `POST /attendance/scan` (requestChallenge).  `digit` is the random digit
draw for `generate_otp`; `_notify_ok` is the outcome of the background
`send_otp_email` task, which the handler never consults (fire-and-forget). -/
def scan_qr_code (now : Nat) (digit : Fin 6 → Fin 10) (_notify_ok : Bool)
    (qr_session_id : String) (current_user : UserDoc) (s : Store) :
    Outcome String × Store :=
  if ¬ (current_user.role ∈ scan_allowed) then (.err .permissionDenied, s)
  else
    match s.qr_sessions.find? (fun q => q.id == qr_session_id) with
    | none => (.err .notFound, s)
    | some qr_session_obj =>
      if now > qr_session_obj.expires_at then (.err .expired, s)
      else if current_user.class_id ≠ some qr_session_obj.class_id then
        (.err .permissionDenied, s)
      else if (s.attendance.find? (fun a =>
          a.student_id == current_user.id &&
            a.qr_session_id == qr_session_id)).isSome then
        (.err .conflict, s)
      else
        let otp := generate_otp digit
        let otp_request : OTPRequest :=
          ⟨current_user.id, qr_session_id, otp, now + 5 * 60, false, now⟩
        (.ok "OTP sent to your email",
          { s with otp_requests := s.otp_requests ++ [otp_request] })

/-- `POST /attendance/verify` (verifyChallenge).  `att_id` stands for the new
attendance record's `uuid4`.  When the session lookup returns `None`,
`QRSession(**qr_session)` raises `TypeError`: `crash`. -/
def verify_otp (now : Nat) (att_id : String) (qr_session_id otp : String)
    (current_user : UserDoc) (s : Store) : Outcome String × Store :=
  if ¬ (current_user.role ∈ verify_allowed) then (.err .permissionDenied, s)
  else
    match s.otp_requests.find?
        (otpMatches current_user.id qr_session_id otp) with
    | none => (.err .invalidCode, s)
    | some otp_obj =>
      if now > otp_obj.expires_at then (.err .expired, s)
      else
        match s.qr_sessions.find? (fun q => q.id == qr_session_id) with
        | none => (.crash, s)
        | some qr_session_obj =>
          let attendance : Attendance :=
            ⟨att_id, current_user.id, qr_session_obj.class_id,
              qr_session_obj.teacher_id, qr_session_obj.subject, now,
              "present", qr_session_id, now⟩
          let s1 := { s with attendance := s.attendance ++ [attendance] }
          let consumed :=
            markFirstVerified (otpMatches current_user.id qr_session_id otp)
              s1.otp_requests
          let s2 := { s1 with otp_requests := consumed }
          (.ok "Attendance marked successfully", s2)

/-- `POST /students`: the handler overwrites `role` and `class_id` on the
request body before the duplicate check, and stores the document without any
`hashed_password` key. -/
def add_student (student_data : UserCreate) (new_id : String) (now : Nat)
    (current_user : UserDoc) (s : Store) : Outcome UserDoc × Store :=
  if ¬ (current_user.role ∈ add_student_allowed) then (.err .permissionDenied, s)
  else
    let sd := { student_data with role := STUDENT,
                                  class_id := current_user.class_id }
    if (s.users.find? (fun x => x.email == sd.email)).isSome then
      (.err .conflict, s)
    else
      let user_obj : UserDoc :=
        ⟨new_id, sd.email, sd.username, sd.role, sd.department_id, sd.class_id,
          sd.roll_no, sd.working_time, none, now, true⟩
      (.ok user_obj, { s with users := s.users ++ [user_obj] })

/-- `GET /students`. -/
def get_students (current_user : UserDoc) (s : Store) :
    Outcome (List UserDoc) × Store :=
  if ¬ (current_user.role ∈ get_students_allowed) then
    (.err .permissionDenied, s)
  else
    let query : UserDoc → Bool := fun u =>
      u.role == STUDENT &&
        (if current_user.role == CLASS_TEACHER then
          u.class_id == current_user.class_id
        else true)
    (.ok (s.users.filter query), s)

/-- One row of the attendance report, after the per-record enrichment loop. -/
structure EnrichedAttendance where
  record : Attendance
  student_name : String
  student_roll_no : Option String
  class_name : String
deriving DecidableEq, Repr

/-- The enrichment of one record in `get_attendance_report`'s loop.  When the
student is absent both display fields read "Unknown". -/
def enrich_record (s : Store) (r : Attendance) : EnrichedAttendance :=
  let student := s.users.find? (fun x => x.id == r.student_id)
  let class_info := s.classes.find? (fun c => c.id == r.class_id)
  { record := r,
    student_name := (match student with
      | some st => st.username
      | none => "Unknown"),
    student_roll_no := (match student with
      | some st => st.roll_no
      | none => some "Unknown"),
    class_name := (match class_info with
      | some c => c.name
      | none => "Unknown") }

/-- `GET /reports/attendance`.  `start_date`/`end_date` are the already-parsed
ISO dates, as instants; the date filter applies only when both are present. -/
def get_attendance_report (class_id : Option String)
    (start_date end_date : Option Nat) (current_user : UserDoc) (s : Store) :
    Outcome (List EnrichedAttendance) × Store :=
  if ¬ (current_user.role ∈ report_allowed) then (.err .permissionDenied, s)
  else
    let byClass : Attendance → Bool := fun r =>
      match class_id with
      | some cid => r.class_id == cid
      | none =>
        if current_user.role == CLASS_TEACHER then
          current_user.class_id == some r.class_id
        else true
    let byDate : Attendance → Bool := fun r =>
      match start_date, end_date with
      | some a, some b => a ≤ r.date && r.date ≤ b
      | _, _ => true
    let records := s.attendance.filter (fun r => byClass r && byDate r)
    (.ok (records.map (enrich_record s)), s)

/-! ### Concrete scenario used by witnesses and counterexamples -/

/-- A class teacher of class `C`. -/
def teacherT : UserDoc :=
  ⟨"T", "t@school.com", "Teacher T", CLASS_TEACHER, none, some "C", none, none,
    some "hashT", 0, true⟩

/-- A student enrolled in class `C`. -/
def studentA : UserDoc :=
  ⟨"A", "a@school.com", "Student A", STUDENT, none, some "C", some "CS0001",
    none, none, 0, true⟩

/-- The initial store: just the two accounts. -/
def store0 : Store := ⟨[teacherT, studentA], [], [], [], [], [], []⟩

/-- A concrete QR encoder instance (the encoder is an abstract collaborator;
any pure function may stand for it in a concrete run). -/
def encId : String → String := fun p => p

/-- A digit draw producing the code "111111". -/
def digitsOne : Fin 6 → Fin 10 := fun _ => 1

/-- A digit draw producing the code "222222". -/
def digitsTwo : Fin 6 → Fin 10 := fun _ => 2

/-- The store after teacher `T` issues session `S` for class `C` at time 0;
the session expires at `900`. -/
def sessionStore : Store :=
  (generate_qr_session 0 "S" "C" "Math" encId teacherT store0).2

/-- An unconsumed challenge for `(A, S)` with code `111111` expiring at 300. -/
def otpAS : OTPRequest := ⟨"A", "S", "111111", 300, false, 0⟩

/-- A store holding an unconsumed challenge for `(A, S)` whose parent session
record is absent from `qr_sessions`. -/
def c3_store : Store := ⟨[studentA], [], [], [], [], [otpAS], []⟩

/-! ### Theorems -/

/-- **C3** — code bug: when `verify_otp` finds a matching unconsumed,
unexpired challenge but the parent session record is absent, the handler
evaluates `QRSession(**None)` and crashes with an unhandled `TypeError`
instead of failing with the NotFound error the spec requires. -/
theorem c3_session_vanished_crash :
    verify_otp 10 "att1" "S" "111111" studentA c3_store = (.crash, c3_store) ∧
    (Outcome.crash : Outcome String) ≠ .err .notFound :=
  ⟨by decide, by decide⟩

/-- **C6** — every gated operation checks the caller's role first and fails
with PermissionDenied for any store (hence before any read or write of the
target resource, and never NotFound for absent resources), and the allowed
role sets are exactly those of the spec's role table. -/
theorem c6_role_gates (u : UserDoc) :
    (create_department_allowed = [SUPERADMIN] ∧
      create_class_allowed = [SUBADMIN] ∧
      create_schedule_allowed = [SUBADMIN] ∧
      register_allowed = [SUPERADMIN, SUBADMIN] ∧
      add_student_allowed = [CLASS_TEACHER] ∧
      generate_qr_allowed = [CLASS_TEACHER, SUB_TEACHER] ∧
      get_students_allowed = [CLASS_TEACHER, SUB_TEACHER] ∧
      scan_allowed = [STUDENT] ∧
      verify_allowed = [STUDENT] ∧
      report_allowed = [CLASS_TEACHER, SUB_TEACHER, SUBADMIN]) ∧
    (u.role ∉ create_department_allowed → ∀ name nid now s,
      create_department name nid now u s = (.err .permissionDenied, s)) ∧
    (u.role ∉ create_class_allowed → ∀ name did nid now s,
      create_class name did nid now u s = (.err .permissionDenied, s)) ∧
    (u.role ∉ create_schedule_allowed → ∀ sd s,
      create_schedule sd u s = (.err .permissionDenied, s)) ∧
    (u.role ∉ register_allowed → ∀ d nid now hash s,
      register_user d nid now hash u s = (.err .permissionDenied, s)) ∧
    (u.role ∉ add_student_allowed → ∀ d nid now s,
      add_student d nid now u s = (.err .permissionDenied, s)) ∧
    (u.role ∉ generate_qr_allowed → ∀ now sid cid subj enc s,
      generate_qr_session now sid cid subj enc u s =
        (.err .permissionDenied, s)) ∧
    (u.role ∉ get_students_allowed → ∀ s,
      get_students u s = (.err .permissionDenied, s)) ∧
    (u.role ∉ scan_allowed → ∀ now digit b sid s,
      scan_qr_code now digit b sid u s = (.err .permissionDenied, s)) ∧
    (u.role ∉ verify_allowed → ∀ now aid sid code s,
      verify_otp now aid sid code u s = (.err .permissionDenied, s)) ∧
    (u.role ∉ report_allowed → ∀ cid sd ed s,
      get_attendance_report cid sd ed u s = (.err .permissionDenied, s)) := by
  refine ⟨⟨rfl, rfl, rfl, rfl, rfl, rfl, rfl, rfl, rfl, rfl⟩, ?_, ?_, ?_, ?_,
    ?_, ?_, ?_, ?_, ?_, ?_⟩ <;>
    intro h <;> intros <;> simp [create_department, create_class,
      create_schedule, register_user, add_student, generate_qr_session,
      get_students, scan_qr_code, verify_otp, get_attendance_report, h]

/-- Witness for C6 at a concrete input: a student may not create departments,
even over a store with no department at all. -/
theorem c6_role_gates_witness :
    studentA.role ∉ create_department_allowed ∧
    create_department "Physics" "d1" 0 studentA store0 =
      (.err .permissionDenied, store0) :=
  ⟨by decide, (c6_role_gates studentA).2.1 (by decide) "Physics" "d1" 0 store0⟩

/-- **C9** — every account created by `add_student` is stored with role
`student` and the registering teacher's own class, regardless of the role and
class submitted in the request, and the only store change is that one user
insert. -/
theorem c9_add_student_overwrites (data : UserCreate) (nid : String) (now : Nat)
    (cu : UserDoc) (s : Store) (u : UserDoc) (s' : Store)
    (h : add_student data nid now cu s = (.ok u, s')) :
    u.role = STUDENT ∧ u.class_id = cu.class_id ∧
    s'.users = s.users ++ [u] ∧ s'.departments = s.departments ∧
    s'.classes = s.classes ∧ s'.schedules = s.schedules ∧
    s'.qr_sessions = s.qr_sessions ∧ s'.otp_requests = s.otp_requests ∧
    s'.attendance = s.attendance := by
  unfold add_student at h
  by_cases hr : cu.role ∈ add_student_allowed
  · simp only [hr, not_true_eq_false, if_false] at h
    by_cases hex : (s.users.find? (fun x => x.email == data.email)).isSome
    · simp [hex] at h
    · simp [hex] at h
      obtain ⟨hu, hs⟩ := h
      subst hu
      subst hs
      simp
  · simp [hr] at h

/-- A registration request submitted by teacher `T` that tries to smuggle in a
superadmin role and a foreign class. -/
def bReq : UserCreate :=
  ⟨"b@school.com", "Student B", "pw", SUPERADMIN, some "D2", some "OTHER",
    some "CS0002", none⟩

/-- The document `add_student` actually stores for `bReq`. -/
def bDoc : UserDoc :=
  ⟨"B", "b@school.com", "Student B", STUDENT, some "D2", some "C",
    some "CS0002", none, none, 5, true⟩

/-- The store after teacher `T` registers `bReq`. -/
def bStore : Store := { store0 with users := store0.users ++ [bDoc] }

/-- Witness for C9: the request asked for role superadmin in class OTHER, yet
the stored account is a student of the teacher's class `C`. -/
theorem c9_add_student_overwrites_witness :
    add_student bReq "B" 5 teacherT store0 = (.ok bDoc, bStore) ∧
    bDoc.role = STUDENT ∧ bDoc.class_id = teacherT.class_id :=
  ⟨by decide,
    (c9_add_student_overwrites bReq "B" 5 teacherT store0 bDoc bStore
      (by decide)).1,
    (c9_add_student_overwrites bReq "B" 5 teacherT store0 bDoc bStore
      (by decide)).2.1⟩

/-- **C10** — accounts created by `add_student` are stored without any
password hash, and a password login against such an account crashes on the
missing `hashed_password` key (a `KeyError`), instead of returning the
Unauthenticated error that wrong credentials produce. -/
theorem c10_student_login_crashes (data : UserCreate) (nid : String)
    (now : Nat) (cu : UserDoc) (s : Store) (u : UserDoc) (s' : Store)
    (h : add_student data nid now cu s = (.ok u, s'))
    (hash mkTok : String → String) (pw : String) :
    u.hashed_password = none ∧
    login hash mkTok u.email pw s' = (.crash, s') := by
  unfold add_student at h
  by_cases hr : cu.role ∈ add_student_allowed
  · simp only [hr, not_true_eq_false, if_false] at h
    by_cases hex : (s.users.find? (fun x => x.email == data.email)).isSome
    · simp [hex] at h
    · simp [hex] at h
      obtain ⟨hu, hs⟩ := h
      subst hu
      subst hs
      have hnone : s.users.find? (fun x => x.email == data.email) = none :=
        Option.not_isSome_iff_eq_none.mp hex
      refine ⟨rfl, ?_⟩
      unfold login
      simp [List.find?_append, hnone]
  · simp [hr] at h

/-- Witness for C10: logging in with student B's email and an arbitrary
password crashes rather than returning Unauthenticated. -/
theorem c10_student_login_crashes_witness :
    bDoc.hashed_password = none ∧
    login encId encId bDoc.email "guess" bStore = (.crash, bStore) :=
  c10_student_login_crashes bReq "B" 5 teacherT store0 bDoc bStore (by decide)
    encId encId "guess"

/-- **C8** — when the unconsumed challenge matching the submitted code has
already expired, `verify_otp` fails with Expired (not InvalidCode, not
success) and leaves the store unchanged: no record is inserted and no
challenge is consumed. -/
theorem c8_expired_challenge (now : Nat) (aid sid code : String) (u : UserDoc)
    (s : Store) (o : OTPRequest) (hrole : u.role = STUDENT)
    (hfind : s.otp_requests.find? (otpMatches u.id sid code) = some o)
    (hexp : now > o.expires_at) :
    verify_otp now aid sid code u s = (.err .expired, s) := by
  have hra : u.role ∈ verify_allowed := by simp [verify_allowed, hrole]
  unfold verify_otp
  simp [hra, hfind, hexp]

/-- Witness for C8: at time 400 the challenge that expired at 300 fails with
Expired even on its exact code. -/
theorem c8_expired_challenge_witness :
    studentA.role = STUDENT ∧
    c3_store.otp_requests.find? (otpMatches studentA.id "S" "111111") =
      some otpAS ∧
    400 > otpAS.expires_at ∧
    verify_otp 400 "att1" "S" "111111" studentA c3_store =
      (.err .expired, c3_store) :=
  ⟨by decide, by decide, by decide,
    c8_expired_challenge 400 "att1" "S" "111111" studentA c3_store otpAS
      (by decide) (by decide) (by decide)⟩

/-- The code produced by `generate_otp` always has exactly six characters. -/
theorem generate_otp_length (digit : Fin 6 → Fin 10) :
    (generate_otp digit).length = 6 := by
  simp [generate_otp, String.length]

/-- Every character of a `generate_otp` code is a decimal digit. -/
theorem generate_otp_digits (digit : Fin 6 → Fin 10) :
    ∀ c ∈ (generate_otp digit).data, c.isDigit = true := by
  intro c hc
  have hall : ∀ d : Fin 10, (Char.ofNat (48 + d.val)).isDigit = true := by
    decide
  simp only [generate_otp, List.mem_map] at hc
  obtain ⟨i, _, rfl⟩ := hc
  exact hall (digit i)

/-- **C2** — full characterization of `scan_qr_code` for a student caller:
NotFound iff the session is absent; Expired iff present but past expiry;
PermissionDenied iff live but the student's class differs; Conflict iff an
attendance record for the pair already exists; otherwise success, appending
exactly one challenge whose code is the six-digit string drawn and whose
expiry is `now + 5` minutes, to an otherwise unchanged store; the code is
always six decimal digits; and the result is independent of the notification
outcome. -/
theorem c2_request_challenge (now : Nat) (digit : Fin 6 → Fin 10) (b b' : Bool)
    (sid : String) (u : UserDoc) (s : Store) (hrole : u.role = STUDENT) :
    (scan_qr_code now digit b sid u s = (.err .notFound, s) ↔
      s.qr_sessions.find? (fun q => q.id == sid) = none) ∧
    (scan_qr_code now digit b sid u s = (.err .expired, s) ↔
      ∃ qs, s.qr_sessions.find? (fun q => q.id == sid) = some qs ∧
        now > qs.expires_at) ∧
    (scan_qr_code now digit b sid u s = (.err .permissionDenied, s) ↔
      ∃ qs, s.qr_sessions.find? (fun q => q.id == sid) = some qs ∧
        ¬ now > qs.expires_at ∧ u.class_id ≠ some qs.class_id) ∧
    (scan_qr_code now digit b sid u s = (.err .conflict, s) ↔
      ∃ qs, s.qr_sessions.find? (fun q => q.id == sid) = some qs ∧
        ¬ now > qs.expires_at ∧ u.class_id = some qs.class_id ∧
        (s.attendance.find? (fun a => a.student_id == u.id &&
          a.qr_session_id == sid)).isSome) ∧
    (∀ qs, s.qr_sessions.find? (fun q => q.id == sid) = some qs →
      ¬ now > qs.expires_at → u.class_id = some qs.class_id →
      (s.attendance.find? (fun a => a.student_id == u.id &&
        a.qr_session_id == sid)).isSome = false →
      scan_qr_code now digit b sid u s = (.ok "OTP sent to your email",
        { s with otp_requests := s.otp_requests ++
          [⟨u.id, sid, generate_otp digit, now + 5 * 60, false, now⟩] })) ∧
    (generate_otp digit).length = 6 ∧
    (∀ c ∈ (generate_otp digit).data, c.isDigit = true) ∧
    scan_qr_code now digit b sid u s = scan_qr_code now digit b' sid u s := by
  have hra : u.role ∈ scan_allowed := by simp [scan_allowed, hrole]
  refine ⟨?_, ?_, ?_, ?_, ?_, generate_otp_length digit,
    generate_otp_digits digit, rfl⟩ <;>
    unfold scan_qr_code <;>
    cases hq : s.qr_sessions.find? (fun q => q.id == sid) with
  | none => simp [hra, hq]
  | some qs =>
    by_cases hexp : now > qs.expires_at
    · simp [hra, hq, hexp]
    · by_cases hcls : u.class_id = some qs.class_id
      · by_cases hatt : (s.attendance.find? (fun a =>
            a.student_id == u.id && a.qr_session_id == sid)).isSome
        · simp [hra, hq, hexp, hcls, hatt] <;> omega
        · simp [hra, hq, hexp, hcls, hatt]
      · simp [hra, hq, hexp, hcls] <;> omega

/-- Witness for C2 at a concrete input: scanning an unknown session id fails
with NotFound. -/
theorem c2_request_challenge_witness :
    studentA.role = STUDENT ∧
    scan_qr_code 0 digitsOne true "nope" studentA store0 =
      (.err .notFound, store0) :=
  ⟨by decide,
    ((c2_request_challenge 0 digitsOne true false "nope" studentA store0
      (by decide)).1).mpr (by decide)⟩

/-- **C5** — for an issuer whose role passes the gate, `generate_qr_session`
fails with PermissionDenied when a class teacher targets a class other than
their own; otherwise it succeeds, appends exactly one session whose expiry is
`now + 15` minutes and whose payload binds the session id, class id and issuer
id, changes nothing else, and returns the session id, encoded artifact and
expiry. -/
theorem c5_issue_session (now : Nat) (sid class_id subject : String)
    (enc : String → String) (u : UserDoc) (s : Store)
    (hrole : u.role ∈ generate_qr_allowed) :
    (u.role = CLASS_TEACHER → u.class_id ≠ some class_id →
      generate_qr_session now sid class_id subject enc u s =
        (.err .permissionDenied, s)) ∧
    (u.role = SUB_TEACHER ∨ u.class_id = some class_id →
      generate_qr_session now sid class_id subject enc u s =
        (.ok ⟨enc (qrPayload sid class_id u.id), sid, now + 15 * 60⟩,
          { s with qr_sessions := s.qr_sessions ++
            [⟨sid, class_id, u.id, subject, enc (qrPayload sid class_id u.id),
              now + 15 * 60, now⟩] })) := by
  constructor
  · intro hct hne
    unfold generate_qr_session
    simp [hrole, hct, hne]
  · intro hcase
    unfold generate_qr_session
    rcases hcase with hst | heq
    · have hne : u.role ≠ CLASS_TEACHER := by
        rw [hst]; decide
      simp [hrole, hne]
    · simp [hrole, heq]

/-- Witness for C5: teacher `T` issues a session for their own class `C`. -/
theorem c5_issue_session_witness :
    teacherT.role ∈ generate_qr_allowed ∧
    generate_qr_session 0 "S" "C" "Math" encId teacherT store0 =
      (.ok ⟨encId (qrPayload "S" "C" teacherT.id), "S", 0 + 15 * 60⟩,
        { store0 with qr_sessions := store0.qr_sessions ++
          [⟨"S", "C", teacherT.id, "Math",
            encId (qrPayload "S" "C" teacherT.id), 0 + 15 * 60, 0⟩] }) :=
  ⟨by decide,
    (c5_issue_session 0 "S" "C" "Math" encId teacherT store0 (by decide)).2
      (Or.inr (by decide))⟩

/-- The store after student `A` scans session `S` at time 10 (code 111111). -/
def scanned1Store : Store :=
  (scan_qr_code 10 digitsOne true "S" studentA sessionStore).2

/-- The store after a second scan at time 20 (code 222222): two live
challenges for the pair `(A, S)`. -/
def scanned2Store : Store :=
  (scan_qr_code 20 digitsTwo true "S" studentA scanned1Store).2

/-- The store after verifying code 111111 at time 30 in the single-challenge
state. -/
def verified1Store : Store :=
  (verify_otp 30 "att1" "S" "111111" studentA scanned1Store).2

/-- The store after verifying code 111111 at time 30 in the two-challenge
state. -/
def verified2Store : Store :=
  (verify_otp 30 "att1" "S" "111111" studentA scanned2Store).2

/-- **C4** is false as stated: a scan 14 minutes into the 15-minute session
window succeeds and creates a challenge expiring at 1140, after the session's
own expiry 900. -/
theorem c4_overlap_counterexample :
    (scan_qr_code 840 digitsOne true "S" studentA sessionStore).1 =
      .ok "OTP sent to your email" ∧
    ((scan_qr_code 840 digitsOne true "S" studentA
      sessionStore).2.otp_requests.map (fun o => o.expires_at)) = [1140] ∧
    sessionStore.qr_sessions.map (fun q => q.expires_at) = [900] ∧
    ¬ (1140 < 900) := by
  decide

/-- **C4 (amended)** — the challenge created by a successful
`scan_qr_code` expires strictly before its session only when the scan happens
more than 5 minutes before the session's expiry; this theorem proves the
property under that window hypothesis. -/
theorem c4_amended_challenge_window (now : Nat) (digit : Fin 6 → Fin 10)
    (b : Bool) (sid : String) (u : UserDoc) (s : Store) (qs : QRSession)
    (msg : String) (s' : Store)
    (hfind : s.qr_sessions.find? (fun q => q.id == sid) = some qs)
    (hok : scan_qr_code now digit b sid u s = (.ok msg, s'))
    (hwin : now + 5 * 60 < qs.expires_at) :
    ∃ req : OTPRequest, s'.otp_requests = s.otp_requests ++ [req] ∧
      req.expires_at < qs.expires_at := by
  unfold scan_qr_code at hok
  by_cases hra : u.role ∈ scan_allowed
  · simp only [hra, not_true_eq_false, if_false] at hok
    rw [hfind] at hok
    by_cases hexp : now > qs.expires_at
    · simp [hexp] at hok
    · by_cases hcls : u.class_id = some qs.class_id
      · by_cases hatt : (s.attendance.find? (fun a =>
            a.student_id == u.id && a.qr_session_id == sid)).isSome
        · simp [hexp, hcls, hatt] at hok
        · simp [hexp, hcls, hatt] at hok
          obtain ⟨-, hs⟩ := hok
          subst hs
          exact ⟨_, rfl, hwin⟩
      · simp [hexp, hcls] at hok
  · simp [hra] at hok

/-- The session document stored for the scenario session `S`. -/
def sessionS : QRSession := ⟨"S", "C", "T", "Math", "attendance:S:C:T", 900, 0⟩

/-- Witness for the amended C4: a scan at time 10 yields a challenge expiring
at 310, before the session's expiry 900. -/
theorem c4_amended_challenge_window_witness :
    sessionStore.qr_sessions.find? (fun q => q.id == "S") = some sessionS ∧
    (∃ req : OTPRequest,
      scanned1Store.otp_requests = sessionStore.otp_requests ++ [req] ∧
      req.expires_at < sessionS.expires_at) :=
  ⟨by decide,
    c4_amended_challenge_window 10 digitsOne true "S" studentA sessionStore
      sessionS "OTP sent to your email" scanned1Store (by decide) (by decide)
      (by decide)⟩

/-- A consumed challenge no longer matches `verify_otp`'s lookup filter. -/
theorem otpMatches_marked_false (student_id sid code : String)
    (o : OTPRequest) :
    otpMatches student_id sid code { o with verified := true } = false := by
  simp [otpMatches]

/-- After consuming the first match of `p`, no match of `p` remains, provided
at most one element matched and marking destroys matching. -/
theorem find?_markFirstVerified (p : OTPRequest → Bool)
    (hp : ∀ o : OTPRequest, p { o with verified := true } = false)
    (l : List OTPRequest) (h : (l.filter p).length ≤ 1) :
    (markFirstVerified p l).find? p = none := by
  induction l with
  | nil => rfl
  | cons o t ih =>
    by_cases hpo : p o = true
    · have hfil : (t.filter p).length = 0 := by
        have h' := h
        rw [List.filter_cons_of_pos hpo, List.length_cons] at h'
        omega
      have hnone : t.find? p = none := by
        rw [List.find?_eq_none]
        intro x hx hpx
        have hmem : x ∈ t.filter p := List.mem_filter.mpr ⟨hx, hpx⟩
        rw [List.length_eq_zero.mp hfil] at hmem
        exact absurd hmem (List.not_mem_nil x)
      simp [markFirstVerified, hpo, hp o, hnone]
    · have hb : p o = false := by
        simpa using hpo
      have h' : (t.filter p).length ≤ 1 := by
        simpa [List.filter_cons, hb] using h
      simp [markFirstVerified, hb, ih h']

/-- **C1 (amended)** — after a successful `verify_otp` for a pair
`(student, session)`, re-verifying with the *same* code fails with InvalidCode
and changes nothing, provided that code matched at most one live challenge.
(The original claim is false for a second live challenge with a different
code: see the counterexample.) -/
theorem c1_amended_consumed_code (now now' : Nat) (aid aid' sid code : String)
    (u : UserDoc) (s : Store) (msg : String) (s' : Store)
    (hok : verify_otp now aid sid code u s = (.ok msg, s'))
    (huniq : (s.otp_requests.filter (otpMatches u.id sid code)).length ≤ 1) :
    verify_otp now' aid' sid code u s' = (.err .invalidCode, s') := by
  unfold verify_otp at hok ⊢
  by_cases hra : u.role ∈ verify_allowed
  · simp only [hra, not_true_eq_false, if_false] at hok ⊢
    cases hfind : s.otp_requests.find? (otpMatches u.id sid code) with
    | none =>
      rw [hfind] at hok
      simp at hok
    | some o =>
      rw [hfind] at hok
      by_cases hexp : now > o.expires_at
      · simp [hexp] at hok
      · cases hsess : s.qr_sessions.find? (fun q => q.id == sid) with
        | none =>
          rw [hsess] at hok
          simp [hexp] at hok
        | some qs =>
          rw [hsess] at hok
          simp [hexp] at hok
          obtain ⟨-, hs⟩ := hok
          subst hs
          have hnone := find?_markFirstVerified (otpMatches u.id sid code)
            (fun o2 => otpMatches_marked_false u.id sid code o2)
            s.otp_requests huniq
          simp [hnone]
  · simp [hra] at hok

/-- Witness for the amended C1: after verifying 111111, re-submitting 111111
fails with InvalidCode and nothing is inserted. -/
theorem c1_amended_consumed_code_witness :
    (scanned1Store.otp_requests.filter
      (otpMatches studentA.id "S" "111111")).length ≤ 1 ∧
    verify_otp 40 "att2" "S" "111111" studentA verified1Store =
      (.err .invalidCode, verified1Store) :=
  ⟨by decide,
    c1_amended_consumed_code 30 40 "att1" "att2" "S" "111111" studentA
      scanned1Store "Attendance marked successfully" verified1Store
      (by decide) (by decide)⟩

/-- **C1** is false as stated: after two scans for the same pair (codes
111111 and 222222) and a successful verification of 111111, verifying 222222
also succeeds and inserts a second attendance record for the same
`(student, session)` pair. -/
theorem c1_double_record_counterexample :
    (verify_otp 30 "att1" "S" "111111" studentA scanned2Store).1 =
      .ok "Attendance marked successfully" ∧
    (verify_otp 40 "att2" "S" "222222" studentA verified2Store).1 =
      .ok "Attendance marked successfully" ∧
    ((verify_otp 40 "att2" "S" "222222" studentA
      verified2Store).2.attendance.map
        (fun a => (a.student_id, a.qr_session_id))) =
      [("A", "S"), ("A", "S")] := by
  decide

/-! ### The QR payload decoder (spec-modelled) -/

/-- Split a character list into the groups between colons. -/
def splitCols : List Char → List (List Char)
  | [] => [[]]
  | c :: cs =>
    let r := splitCols cs
    if c = ':' then [] :: r
    else
      match r with
      | [] => [[c]]
      | g :: gs => (c :: g) :: gs

/-- Modelled from the spec: the decoder of the QR artifact payload is not part
of `src/` (it lives in the scanning client); per the payload grammar
`attendance:<session id>:<class id>:<teacher id>` it splits the payload on
`':'` and expects exactly four fields headed by the literal `attendance`. -/
def decode_qr_payload (payload : String) : Option (String × String × String) :=
  match (splitCols payload.data).map String.mk with
  | [head, sid, cid, tid] =>
    if head = "attendance" then some (sid, cid, tid) else none
  | _ => none

/-- A colon-free character list is one single group. -/
theorem splitCols_no_colon (l : List Char) (h : ':' ∉ l) : splitCols l = [l] := by
  induction l with
  | nil => rfl
  | cons c cs ih =>
    have hc : c ≠ ':' := fun hc => h (hc ▸ List.mem_cons_self c cs)
    have hcs : ':' ∉ cs := fun hm => h (List.mem_cons_of_mem c hm)
    simp [splitCols, hc, ih hcs]

/-- Splitting past the first colon after a colon-free group peels that
group off. -/
theorem splitCols_append_colon (a b : List Char) (h : ':' ∉ a) :
    splitCols (a ++ ':' :: b) = a :: splitCols b := by
  induction a with
  | nil => simp [splitCols]
  | cons c cs ih =>
    have hc : c ≠ ':' := fun hc => h (hc ▸ List.mem_cons_self c cs)
    have hcs : ':' ∉ cs := fun hm => h (List.mem_cons_of_mem c hm)
    simp [splitCols, hc, ih hcs]

/-- **C7** is false as stated: the payload encoding is not injective when an
id contains `':'` — session `a` in class `b:c` collides with session `a:b` in
class `c` — so decoding cannot recover the original triple. -/
theorem c7_roundtrip_counterexample :
    qrPayload "a" "b:c" "d" = qrPayload "a:b" "c" "d" ∧
    decode_qr_payload (qrPayload "a" "b:c" "d") ≠ some ("a", "b:c", "d") := by
  decide

/-- **C7 (amended)** — for colon-free session, class and issuer ids (as all
uuid4-generated ids are), decoding the payload built by `generate_qr_session`
recovers exactly the original triple. -/
theorem c7_roundtrip_colon_free (sid cid tid : String)
    (h1 : ':' ∉ sid.data) (h2 : ':' ∉ cid.data) (h3 : ':' ∉ tid.data) :
    decode_qr_payload (qrPayload sid cid tid) = some (sid, cid, tid) := by
  have hdata : (qrPayload sid cid tid).data =
      "attendance".data ++ ':' ::
        (sid.data ++ ':' :: (cid.data ++ ':' :: tid.data)) := by
    simp [qrPayload]
  unfold decode_qr_payload
  rw [hdata, splitCols_append_colon _ _ (by decide),
    splitCols_append_colon _ _ h1, splitCols_append_colon _ _ h2,
    splitCols_no_colon _ h3]
  simp

/-- Witness for the amended C7 on concrete colon-free ids. -/
theorem c7_roundtrip_colon_free_witness :
    ':' ∉ "S1".data ∧ ':' ∉ "C1".data ∧ ':' ∉ "T1".data ∧
    decode_qr_payload (qrPayload "S1" "C1" "T1") = some ("S1", "C1", "T1") :=
  ⟨by decide, by decide, by decide,
    c7_roundtrip_colon_free "S1" "C1" "T1" (by decide) (by decide) (by decide)⟩

end AttendanceSpec
